import Mathlib

/-!
# Verification development for the pause / mmap syscall tests

Shallow embedding of `pause02.c`, `pause03.c`, `mmap001.c`, `mmap01.c` and
`mmap03.c` (testcases/kernel/syscalls).  A test's `run` becomes a function
from what the operating system hands back (a wait status, the outcome of a
memory comparison, the content of a file) to the list of results the test
reports through `tst_res`.
-/

namespace LTP

/-! ## Result reporting -/

/-- Result types passed to `tst_res`. -/
inductive TType where
  | TPASS
  | TFAIL
  | TINFO
  | TBROK
  deriving DecidableEq, Repr

/-- One reported result: its type (flags such as `TTERRNO` left aside) and its
message, kept as the format string given to `tst_res`. -/
structure Result where
  ttype : TType
  msg : String
  deriving DecidableEq, Repr

/-- The results reported so far, oldest first. -/
abbrev Log := List Result

/-- `tst_res(ttype, msg)`: report one result. -/
def tst_res (log : Log) (ttype : TType) (msg : String) : Log :=
  log ++ [⟨ttype, msg⟩]

/-- The PASS results of a log. -/
def passes (log : Log) : Log := log.filter (fun r => r.ttype = TType.TPASS)

/-- The FAIL results of a log. -/
def fails (log : Log) : Log := log.filter (fun r => r.ttype = TType.TFAIL)

/-! ## Signal numbers and wait-status decoding (Linux, `<signal.h>`, `<sys/wait.h>`) -/

def SIGINT : Nat := 2
def SIGKILL : Nat := 9
def SIGSEGV : Nat := 11
def SIGALRM : Nat := 14

/-- `WTERMSIG(status)` is `status & 0x7f`. -/
def WTERMSIG (status : Nat) : Nat := status &&& 0x7f

/-- `WEXITSTATUS(status)` is `(status & 0xff00) >> 8`. -/
def WEXITSTATUS (status : Nat) : Nat := (status &&& 0xff00) >>> 8

/-- `WIFEXITED(status)` is `WTERMSIG(status) == 0`. -/
def WIFEXITED (status : Nat) : Bool := WTERMSIG status == 0

/-- Conversion of a value in `0..255` to `signed char`. -/
def toSignedChar (v : Nat) : Int :=
  if v % 256 < 128 then ((v % 256 : Nat) : Int) else ((v % 256 : Nat) : Int) - 256

/-- `WIFSIGNALED(status)` is `((signed char) ((status & 0x7f) + 1) >> 1) > 0`. -/
def WIFSIGNALED (status : Nat) : Bool :=
  decide (toSignedChar ((status &&& 0x7f) + 1) >>> (1 : Nat) > 0)

/-- `W_EXITCODE(ret, sig)` is `(ret) << 8 | (sig)`: the status of a child that
called `exit(ret)`, of whose argument the low eight bits are kept, has `sig = 0`. -/
def W_EXITCODE (ret sig : Nat) : Nat := (ret <<< 8) ||| sig

/-- Modelled from the spec: the result of `TST_PROCESS_STATE_WAIT(pid, state, timeout)`
(`wait_for_state`), whose definition is in the test library and not among the
sources: either the target state was observed, or the deadline elapsed first. -/
inductive StateWait where
  | reached
  | timedOut
  deriving DecidableEq, Repr

end LTP

/-! ## pause02.c -/

namespace Pause02
open LTP

def EINTR : Int := 4

/-- `do_child`: the child installs its handlers, arms `alarm(10)` and calls
`pause()`.  `TST_RET`/`TST_ERR` are what `TEST(pause())` recorded.  Returns the
results the child reports and the code it passes to `exit`. -/
def do_child (TST_RET TST_ERR : Int) : Log × Nat :=
  if TST_RET = -1 ∧ TST_ERR = EINTR then
    ([], 0)
  else
    (tst_res [] TType.TFAIL "pause() unexpected errno", 1)

/-- `run`, parent side: wait for the child to sleep, send SIGINT, reap the child
and classify `status`.  The value of `TST_PROCESS_STATE_WAIT` is not used. -/
def run (_wait : StateWait) (status : Nat) : Log :=
  if WIFEXITED status then
    if WEXITSTATUS status = 0 then
      tst_res [] TType.TPASS "pause() was interrupted correctly"
    else
      tst_res [] TType.TFAIL "Child exited with %i"
  else if WIFSIGNALED status then
    if WTERMSIG status = SIGALRM then
      tst_res [] TType.TFAIL "Timeout: SIGINT wasn't received by child"
    else
      tst_res [] TType.TFAIL "Child killed by signal"
  else
    tst_res [] TType.TFAIL "pause() was not interrupted"

end Pause02

/-! ## pause03.c -/

namespace Pause03
open LTP

/-- `run`, parent side: wait for the child to sleep, send SIGKILL, reap the child
and classify `status`.  The value of `TST_PROCESS_STATE_WAIT` is not used. -/
def run (_wait : StateWait) (status : Nat) : Log :=
  if WIFSIGNALED status ∧ WTERMSIG status = SIGKILL then
    tst_res [] TType.TPASS "pause() did not return after SIGKILL"
  else
    tst_res [] TType.TFAIL "Child exited with %i"

end Pause03

/-! ## mmap03.c -/

namespace Mmap03
open LTP

/-- The architecture the test is compiled for, as far as the preprocessor
conditions of `run` tell them apart; `other` is any architecture defining none
of `__ia64__`, `__hppa__`, `__mips__`, `__x86_64__`. -/
inductive Arch where
  | ia64
  | hppa
  | mips
  | x86_64
  | other
  deriving DecidableEq, Repr

/-- What `memcmp(dummy, addr, page_sz)` does in one activation: it returns a
value, or the access to the mapped region raises SIGSEGV. -/
inductive Memcmp where
  | ret (v : Int)
  | segv
  deriving DecidableEq, Repr

/-- The global state of the test that `run` reads and writes. -/
structure State where
  sig_flag : Int
  deriving DecidableEq, Repr

/-- The value of the file-scope initialiser: `static volatile int sig_flag = -1`. -/
def State.init : State := ⟨-1⟩

/-- How a signal handler leaves: by `siglongjmp(env, val)`, or by `tst_brk`. -/
inductive HandlerExit where
  | longjmp (val : Int)
  | brk (msg : String)
  deriving DecidableEq, Repr

/-- `sig_handler(sig)`: on SIGSEGV set the flag and jump back, otherwise break. -/
def sig_handler (sig : Nat) (st : State) : State × HandlerExit :=
  if sig = SIGSEGV then
    ({ st with sig_flag := 1 }, HandlerExit.longjmp 1)
  else
    (st, HandlerExit.brk "received an unexpected signal: %d")

/-- The body guarded by `sigsetjmp(env, 1) == 0`, entered on the direct return
(value 0) of `sigsetjmp`.  Returns the state, the log, and the value with which
control is at the end of the `if`: `0` when the body ran to its end, the value
given to `siglongjmp` when the handler jumped back (the rest of the body is then
not executed), or `none` when the handler ended the test with `tst_brk`. -/
def probe (st : State) (cmp : Memcmp) (log : Log) : State × Log × Option Int :=
  match cmp with
  | Memcmp.ret v =>
    if v ≠ 0 then
      (st, tst_res (tst_res log TType.TINFO "memcmp returned non-zero")
                   TType.TFAIL "mapped memory region contains invalid data", some 0)
    else
      (st, tst_res (tst_res log TType.TINFO "memcmp returned zero")
                   TType.TPASS "mmap() functionality is correct", some 0)
  | Memcmp.segv =>
    match sig_handler SIGSEGV st with
    | (st1, HandlerExit.longjmp val) => (st1, log, some val)
    | (st1, HandlerExit.brk msg) => (st1, tst_res log TType.TBROK msg, none)

/-- The architecture-conditional check that follows the probe. `choice` is
`kconfig.choice` as read by `tst_kconfig_read` for
`CONFIG_X86_INTEL_MEMORY_PROTECTION_KEYS` (only read on x86_64). -/
def verdict (arch : Arch) (choice : Char) (st : State) (log : Log) : Log :=
  match arch with
  | Arch.ia64 | Arch.hppa | Arch.mips =>
    if st.sig_flag > 0 then
      tst_res log TType.TPASS "Got SIGSEGV as expected"
    else
      tst_res log TType.TFAIL "Mapped memory region with NO access is accessible"
  | Arch.x86_64 =>
    if choice = 'y' then
      if st.sig_flag > 0 then
        tst_res log TType.TPASS "Got SIGSEGV as expected"
      else
        tst_res log TType.TFAIL "Mapped memory region with NO access is accessible"
    else
      log
  | Arch.other =>
    if st.sig_flag > 0 then
      tst_res log TType.TFAIL "Got unexpected SIGSEGV"
    else
      log

/-- `run`: map the file, read it into `dummy`, compare under the probe, check
the flag against the platform, and reset the flag "in case we are looping".
Returns the state after the iteration and the results it reported. -/
def run (arch : Arch) (choice : Char) (st : State) (cmp : Memcmp) : State × Log :=
  match probe st cmp [] with
  | (st1, log1, some _) =>
    let log2 := verdict arch choice st1 log1
    ({ st1 with sig_flag := -1 }, log2)
  | (st1, log1, none) => (st1, log1)

/-- The platforms on which `run` expects the access to fault. -/
def faultExpected (arch : Arch) (choice : Char) : Prop :=
  arch = Arch.ia64 ∨ arch = Arch.hppa ∨ arch = Arch.mips ∨
    (arch = Arch.x86_64 ∧ choice = 'y')

instance (arch : Arch) (choice : Char) : Decidable (faultExpected arch choice) := by
  unfold faultExpected; infer_instance

/-- One iteration of the test loop: the kernel configuration read and the
behaviour of the comparison in that iteration. -/
structure Iter where
  choice : Char
  cmp : Memcmp
  deriving DecidableEq, Repr

/-- The test loop: `run` is called once per iteration on the state the previous
iteration left.  For each iteration, records the value of `sig_flag` when the
iteration enters the probe and the results the iteration reported. -/
def runLoop (arch : Arch) : State → List Iter → List (Int × Log)
  | _, [] => []
  | st, it :: rest =>
    let r := run arch it.choice st it.cmp
    (st.sig_flag, r.2) :: runLoop arch r.1 rest

/-- The state in which the test loop leaves the globals after the given
iterations, that is the state on which the next iteration enters `run`. -/
def loopState (arch : Arch) : State → List Iter → State
  | st, [] => st
  | st, it :: rest => loopState arch (run arch it.choice st it.cmp).1 rest

end Mmap03

example : Mmap03.run .ia64 'n' .init .segv = (⟨-1⟩, [⟨.TPASS, "Got SIGSEGV as expected"⟩]) := by decide
example : Mmap03.run .x86_64 'n' .init .segv = (⟨-1⟩, []) := by decide
example : Mmap03.run .mips 'n' .init (.ret 0) = (⟨-1⟩, [⟨.TINFO, "memcmp returned zero"⟩, ⟨.TPASS, "mmap() functionality is correct"⟩, ⟨.TFAIL, "Mapped memory region with NO access is accessible"⟩]) := by decide

/-! ## mmap01.c -/

namespace Mmap01
open LTP

/-- `#define STRING "hello world"`. -/
def STRING : String := "hello world"

/-- `sizeof(STRING)`: the characters of the literal and its terminating NUL. -/
def sizeof_STRING : Nat := STRING.length + 1

/-- `buf_len = sizeof(STRING) + 3`. -/
def buf_len : Nat := sizeof_STRING + 3

/-- The content of the temporary file after `setup`: `strlen(write_buf)` bytes of
`STRING` written to the newly created file. -/
def setup_file : List Char := STRING.toList

/-- `SAFE_READ(0, fildes, buf, count)` on a freshly opened file: the first
`min count file.length` bytes of the file are stored at the start of `buf`, the
remaining bytes of `buf` keep what they held. -/
def SAFE_READ (file : List Char) (buf : Nat → Char) (count : Nat) : Nat → Char :=
  fun i => if i < count then (file.get? i).getD (buf i) else buf i

/-- The condition of the scan: `c == 'X' || c == 'Y' || c == 'Z'`. -/
def isPattern (c : Char) : Bool := c == 'X' || c == 'Y' || c == 'Z'

/-- The scan `for (i = 0; i < buf_len; i++) if (...) break;` with `remaining`
iterations left before `i` reaches `buf_len`; returns the final value of `i`. -/
def scan (buf : Nat → Char) : (remaining : Nat) → (i : Nat) → Nat
  | 0, i => i
  | remaining + 1, i => if isPattern (buf i) then i else scan buf remaining (i + 1)

/-- `check_file`: read up to `buf_len` bytes of the file into the local array
`buf` and scan all `buf_len` bytes of `buf` for the pattern.  `stack` is what the
automatic array `char buf[buf_len]`, which has no initialiser, holds at entry. -/
def check_file (file : List Char) (stack : Nat → Char) : Log :=
  let buf := SAFE_READ file stack buf_len
  let i := scan buf buf_len 0
  if i = buf_len then
    tst_res [] TType.TPASS "Functionality of mmap() successful"
  else
    tst_res [] TType.TFAIL "Specified pattern found in file"

end Mmap01

/-! ## mmap001.c -/

namespace Mmap001
open LTP

def INT_MAX : Int := 2147483647

/-- The number of values of `unsigned int`. -/
def UINT_RANGE : Nat := 2 ^ 32

/-- Conversion of an `int` to `unsigned int`. -/
def toUnsigned (v : Int) : Nat := (v % (UINT_RANGE : Int)).toNat

/-- The values of the option `-m` that `setup` lets through:
`tst_parse_int(m_copt, &m_opt, 1, INT_MAX)` succeeds. -/
def setup_accepts (m_opt : Int) : Prop := 1 ≤ m_opt ∧ m_opt ≤ INT_MAX

instance (m_opt : Int) : Decidable (setup_accepts m_opt) := by
  unfold setup_accepts; infer_instance

/-- The value of `memsize` in `run`: `memsize = m_opt; memsize *= getpagesize();`
with `memsize` of type `unsigned int`. -/
def memsize (m_opt : Int) (pagesize : Int) : Nat :=
  (toUnsigned m_opt * toUnsigned pagesize) % UINT_RANGE

/-- The value of `pages` in `run`: `pages = m_opt`. -/
def pages (m_opt : Int) : Nat := toUnsigned m_opt

/-- `run`, parent side: reap the child and classify `status`. -/
def run (status : Nat) : Log :=
  if WIFSIGNALED status ∧ WEXITSTATUS status = SIGSEGV then
    tst_res [] TType.TFAIL "test was killed by SIGSEGV"
  else
    tst_res [] TType.TPASS "memory was mapped and written to successfully"

end Mmap001

example : Mmap01.buf_len = 15 := by decide
example : Mmap01.check_file Mmap01.setup_file (fun _ => 'a') = [⟨.TPASS, "Functionality of mmap() successful"⟩] := by decide
example : Mmap01.check_file Mmap01.setup_file (fun _ => 'X') = [⟨.TFAIL, "Specified pattern found in file"⟩] := by decide
example : Mmap001.memsize 1048576 4096 = 0 := by decide
example : Mmap001.run 11 = [⟨.TPASS, "memory was mapped and written to successfully"⟩] := by decide
example : Mmap001.run 139 = [⟨.TPASS, "memory was mapped and written to successfully"⟩] := by decide

/-! ## Wait-status decoding: supporting lemmas -/

namespace LTP

theorem tst_res_nil (ttype : TType) (msg : String) : tst_res [] ttype msg = [⟨ttype, msg⟩] := rfl

theorem WTERMSIG_eq_mod (status : Nat) : WTERMSIG status = status % 128 := by
  unfold WTERMSIG
  exact Nat.and_pow_two_sub_one_eq_mod status 7

/-- A status is "signaled" exactly when its low seven bits hold a value in `1..126`. -/
theorem WIFSIGNALED_iff (status : Nat) :
    WIFSIGNALED status = true ↔ 1 ≤ WTERMSIG status ∧ WTERMSIG status ≤ 126 := by
  have hm := WTERMSIG_eq_mod status
  have hlt : status % 128 < 128 := Nat.mod_lt _ (by decide)
  unfold WIFSIGNALED toSignedChar
  rw [decide_eq_true_iff]
  unfold WTERMSIG at hm ⊢
  rw [hm, Int.shiftRight_eq_div_pow]
  split <;> omega

theorem WIFEXITED_iff (status : Nat) : WIFEXITED status = true ↔ WTERMSIG status = 0 := by
  unfold WIFEXITED
  simp

/-- No status is both "exited" and "signaled". -/
theorem not_exited_of_signaled (status : Nat) (h : WIFSIGNALED status = true) :
    WIFEXITED status = false := by
  have h1 := (WIFSIGNALED_iff status).1 h
  cases hE : WIFEXITED status with
  | false => rfl
  | true =>
    have h2 := (WIFEXITED_iff status).1 hE
    omega

end LTP

/-! ## pause02.c, pause03.c: theorems -/

section Pause
open LTP

/-- C1: for every wait status reaped for the child (and whatever the state wait
returned), the parent side of pause02's `run` reports exactly one result; that
result is PASS if and only if the status is a normal exit with exit code 0, and
it is a FAIL for a normal exit with a non-zero code, for a termination by
SIGALRM, for a termination by any other signal, and for a status that is
neither exited nor signaled. -/
theorem pause02_run_reports_one_verdict (w : StateWait) (status : Nat) :
    ∃ r : Result, Pause02.run w status = [r] ∧
      (r.ttype = TType.TPASS ↔ (WIFEXITED status = true ∧ WEXITSTATUS status = 0)) ∧
      (¬ (WIFEXITED status = true ∧ WEXITSTATUS status = 0) → r.ttype = TType.TFAIL) ∧
      (WIFEXITED status = true ∧ WEXITSTATUS status ≠ 0 →
        r = ⟨TType.TFAIL, "Child exited with %i"⟩) ∧
      (WIFSIGNALED status = true ∧ WTERMSIG status = SIGALRM →
        r = ⟨TType.TFAIL, "Timeout: SIGINT wasn't received by child"⟩) ∧
      (WIFSIGNALED status = true ∧ WTERMSIG status ≠ SIGALRM →
        r = ⟨TType.TFAIL, "Child killed by signal"⟩) ∧
      (WIFEXITED status = false ∧ WIFSIGNALED status = false →
        r = ⟨TType.TFAIL, "pause() was not interrupted"⟩) := by
  have hx := not_exited_of_signaled status
  unfold Pause02.run
  simp only [tst_res_nil]
  by_cases hE : WIFEXITED status = true
  · have hS : WIFSIGNALED status = false := by
      cases hS : WIFSIGNALED status with
      | false => rfl
      | true => rw [hx hS] at hE; exact absurd hE (by decide)
    by_cases h0 : WEXITSTATUS status = 0
    · simp [hE, h0, hS]
    · simp [hE, h0, hS]
  · have hE2 : WIFEXITED status = false := by simpa using hE
    by_cases hS : WIFSIGNALED status = true
    · by_cases hA : WTERMSIG status = SIGALRM
      · simp [hE2, hS, hA]
      · simp [hE2, hS, hA]
    · have hS2 : WIFSIGNALED status = false := by simpa using hS
      simp [hE2, hS2]

/-- C2: for every wait status reaped for the child (and whatever the state wait
returned), the parent side of pause03's `run` reports exactly one result; that
result is PASS if and only if the status says the child was terminated by a
signal and the signal is SIGKILL; every other status, in particular every normal
exit (exit code 0 included) and every termination by another signal, is a FAIL. -/
theorem pause03_run_reports_one_verdict (w : StateWait) (status : Nat) :
    ∃ r : Result, Pause03.run w status = [r] ∧
      (r.ttype = TType.TPASS ↔ (WIFSIGNALED status = true ∧ WTERMSIG status = SIGKILL)) ∧
      (¬ (WIFSIGNALED status = true ∧ WTERMSIG status = SIGKILL) → r.ttype = TType.TFAIL) ∧
      (WIFEXITED status = true → r = ⟨TType.TFAIL, "Child exited with %i"⟩) ∧
      (WIFSIGNALED status = true ∧ WTERMSIG status ≠ SIGKILL →
        r = ⟨TType.TFAIL, "Child exited with %i"⟩) := by
  have hx := not_exited_of_signaled status
  unfold Pause03.run
  simp only [tst_res_nil]
  by_cases hS : WIFSIGNALED status = true
  · have hE := hx hS
    by_cases hK : WTERMSIG status = SIGKILL
    · simp [hS, hK, hE]
    · simp [hS, hK, hE]
  · have hS2 : WIFSIGNALED status = false := by simpa using hS
    simp [hS2]

/-- The child of pause02 exits with code 0, reporting nothing, exactly when
`pause()` returned -1 with `EINTR`; on every other return it reports one FAIL and
exits with code 1. -/
theorem pause02_do_child_exit (TST_RET TST_ERR : Int) :
    ((Pause02.do_child TST_RET TST_ERR).2 = 0 ↔ (TST_RET = -1 ∧ TST_ERR = Pause02.EINTR)) ∧
    ((Pause02.do_child TST_RET TST_ERR).2 = 0 → (Pause02.do_child TST_RET TST_ERR).1 = []) ∧
    ((Pause02.do_child TST_RET TST_ERR).2 ≠ 0 →
      Pause02.do_child TST_RET TST_ERR =
        ([⟨TType.TFAIL, "pause() unexpected errno"⟩], 1)) := by
  unfold Pause02.do_child
  by_cases h : TST_RET = -1 ∧ TST_ERR = Pause02.EINTR
  · simp [h]
  · simp [h, tst_res_nil]

/-- The scenario of an interrupted `pause()`: the child reports nothing and exits
with code 0, and on the resulting status the parent reports the single PASS. -/
theorem pause02_interrupted_child_passes (w : StateWait) :
    Pause02.do_child (-1) Pause02.EINTR = ([], 0) ∧
    Pause02.run w (W_EXITCODE (Pause02.do_child (-1) Pause02.EINTR).2 0) =
      [⟨TType.TPASS, "pause() was interrupted correctly"⟩] := by
  cases w <;> decide

/-- C7 (as stated, refuted): with the state wait timed out, pause02's `run` on the
wait status of a child that exited with code 0 reports the very PASS that the
status alone produces, and pause03's `run` on the status of a child killed by
SIGKILL likewise; no separate timed-out outcome is reported. -/
theorem pause_run_timed_out_same_verdict :
    Pause02.run StateWait.timedOut 0 = Pause02.run StateWait.reached 0 ∧
    Pause02.run StateWait.timedOut 0 =
      [⟨TType.TPASS, "pause() was interrupted correctly"⟩] ∧
    Pause03.run StateWait.timedOut 9 = Pause03.run StateWait.reached 9 ∧
    Pause03.run StateWait.timedOut 9 =
      [⟨TType.TPASS, "pause() did not return after SIGKILL"⟩] := by
  decide

/-- C7 (amended): pause02's and pause03's `run` discard the result of the state
wait; the verdict reported is a function of the child's wait status alone, the
same whether the state was reached or the deadline elapsed. -/
theorem pause_run_ignores_state_wait (w : StateWait) (status : Nat) :
    Pause02.run w status = Pause02.run StateWait.reached status ∧
    Pause03.run w status = Pause03.run StateWait.reached status :=
  ⟨rfl, rfl⟩

end Pause

/-! ## mmap03.c: theorems -/

section Mmap03Theorems
open LTP Mmap03

/-- A faulting comparison leaves the probe through the handler: the flag is set,
nothing of the guarded body is reported, and control resumes with value 1. -/
theorem probe_segv (st : State) (log : Log) :
    probe st Memcmp.segv log = (⟨1⟩, log, some 1) := rfl

/-- Every iteration leaves the flag at its not-faulted value. -/
theorem run_resets_flag (arch : Arch) (choice : Char) (st : State) (cmp : Memcmp) :
    (run arch choice st cmp).1 = State.init := by
  cases cmp with
  | ret v =>
    unfold run probe
    by_cases hv : v = 0 <;> simp [hv, State.init]
  | segv => rfl

theorem loopState_init (arch : Arch) (its : List Iter) :
    loopState arch State.init its = State.init := by
  induction its with
  | nil => rfl
  | cons it rest ih =>
    unfold loopState
    rw [run_resets_flag, ih]

/-- C3: on every platform where the fault is expected (ia64, hppa or mips, or
x86_64 with the protection-keys option set to 'y'), and from any state, an
activation whose comparison raises SIGSEGV resumes after the guarded body with
the value given to `siglongjmp`, reports neither memcmp verdict, and reports
PASS "Got SIGSEGV as expected" as its only result. -/
theorem mmap03_expected_fault_reports_pass (arch : Arch) (choice : Char) (st : State)
    (h : faultExpected arch choice) :
    probe st Memcmp.segv [] = (⟨1⟩, [], some 1) ∧
    (run arch choice st Memcmp.segv).2 = [⟨TType.TPASS, "Got SIGSEGV as expected"⟩] := by
  refine ⟨rfl, ?_⟩
  rcases h with h | h | h | ⟨h, hc⟩
  · subst h; rfl
  · subst h; rfl
  · subst h; rfl
  · subst h; subst hc; rfl

/-- The statement of C3 at x86_64 with protection keys enabled. -/
theorem mmap03_expected_fault_reports_pass_witness :
    faultExpected Arch.x86_64 'y' ∧
    probe State.init Memcmp.segv [] = (⟨1⟩, [], some 1) ∧
    (run Arch.x86_64 'y' State.init Memcmp.segv).2 =
      [⟨TType.TPASS, "Got SIGSEGV as expected"⟩] :=
  ⟨by decide, mmap03_expected_fault_reports_pass Arch.x86_64 'y' State.init (by decide)⟩

/-- C4 (as stated, refuted): mips is a configuration other than ia64, hppa and
x86_64 with protection keys, yet a faulting activation there reports PASS
"Got SIGSEGV as expected" and no FAIL. -/
theorem mmap03_mips_fault_reports_pass :
    ¬ (Arch.mips = Arch.ia64 ∨ Arch.mips = Arch.hppa ∨
        (Arch.mips = Arch.x86_64 ∧ 'n' = 'y')) ∧
    (run Arch.mips 'n' State.init Memcmp.segv).2 =
      [⟨TType.TPASS, "Got SIGSEGV as expected"⟩] ∧
    fails (run Arch.mips 'n' State.init Memcmp.segv).2 = [] := by
  decide

/-- C4 (amended): on every platform other than ia64, hppa, mips and x86_64, and
from any state, an activation whose comparison raises SIGSEGV reports FAIL
"Got unexpected SIGSEGV" as its only result; on mips the fault is expected and
the only result is PASS "Got SIGSEGV as expected". -/
theorem mmap03_other_arch_fault_reports_fail (choice : Char) (st : State) :
    (run Arch.other choice st Memcmp.segv).2 = [⟨TType.TFAIL, "Got unexpected SIGSEGV"⟩] ∧
    (run Arch.mips choice st Memcmp.segv).2 = [⟨TType.TPASS, "Got SIGSEGV as expected"⟩] :=
  ⟨rfl, rfl⟩

/-- On x86_64 with the protection-keys option not 'y', a faulting activation
reports no result at all. -/
theorem mmap03_x86_64_no_pku_fault_silent :
    run Arch.x86_64 'n' State.init Memcmp.segv = (State.init, []) := by
  decide

/-- C5 (as stated, refuted): on ia64, an activation without SIGSEGV whose
comparison returns zero reports PASS "mmap() functionality is correct" before
the FAIL. -/
theorem mmap03_no_fault_reports_memcmp_pass :
    faultExpected Arch.ia64 'n' ∧
    (run Arch.ia64 'n' State.init (Memcmp.ret 0)).2 =
      [⟨TType.TINFO, "memcmp returned zero"⟩,
       ⟨TType.TPASS, "mmap() functionality is correct"⟩,
       ⟨TType.TFAIL, "Mapped memory region with NO access is accessible"⟩] ∧
    passes (run Arch.ia64 'n' State.init (Memcmp.ret 0)).2 ≠ [] := by
  decide

/-- C5 (amended): on every platform where the fault is expected, an activation
without SIGSEGV, entered after any number of earlier iterations, reports the
verdict of the comparison (FAIL "mapped memory region contains invalid data"
for a non-zero value, PASS "mmap() functionality is correct" for zero) followed
by FAIL "Mapped memory region with NO access is accessible"; it reports a PASS
exactly when the comparison returns zero. -/
theorem mmap03_no_fault_on_expected_platform (arch : Arch) (choice : Char)
    (earlier : List Iter) (v : Int) (h : faultExpected arch choice) :
    (run arch choice (loopState arch State.init earlier) (Memcmp.ret v)).2 =
      (if v ≠ 0 then
        [⟨TType.TINFO, "memcmp returned non-zero"⟩,
         ⟨TType.TFAIL, "mapped memory region contains invalid data"⟩,
         ⟨TType.TFAIL, "Mapped memory region with NO access is accessible"⟩]
       else
        [⟨TType.TINFO, "memcmp returned zero"⟩,
         ⟨TType.TPASS, "mmap() functionality is correct"⟩,
         ⟨TType.TFAIL, "Mapped memory region with NO access is accessible"⟩]) ∧
    (passes (run arch choice (loopState arch State.init earlier) (Memcmp.ret v)).2 = [] ↔
      v ≠ 0) := by
  rw [loopState_init]
  have hrun : (run arch choice State.init (Memcmp.ret v)).2 =
      (if v ≠ 0 then
        [⟨TType.TINFO, "memcmp returned non-zero"⟩,
         ⟨TType.TFAIL, "mapped memory region contains invalid data"⟩,
         ⟨TType.TFAIL, "Mapped memory region with NO access is accessible"⟩]
       else
        [⟨TType.TINFO, "memcmp returned zero"⟩,
         ⟨TType.TPASS, "mmap() functionality is correct"⟩,
         ⟨TType.TFAIL, "Mapped memory region with NO access is accessible"⟩]) := by
    unfold run probe
    by_cases hv : v = 0
    · rcases h with h | h | h | ⟨h, hc⟩
      · subst h; simp [hv, verdict, State.init, tst_res]
      · subst h; simp [hv, verdict, State.init, tst_res]
      · subst h; simp [hv, verdict, State.init, tst_res]
      · subst h; subst hc; simp [hv, verdict, State.init, tst_res]
    · rcases h with h | h | h | ⟨h, hc⟩
      · subst h; simp [hv, verdict, State.init, tst_res]
      · subst h; simp [hv, verdict, State.init, tst_res]
      · subst h; simp [hv, verdict, State.init, tst_res]
      · subst h; subst hc; simp [hv, verdict, State.init, tst_res]
  refine ⟨hrun, ?_⟩
  rw [hrun]
  by_cases hv : v = 0
  · simp [hv, passes]
  · simp [hv, passes]

/-- The amended statement of C5 at hppa, second iteration after a faulting one,
with a comparison returning 3. -/
theorem mmap03_no_fault_on_expected_platform_witness :
    faultExpected Arch.hppa 'n' ∧
    (run Arch.hppa 'n' (loopState Arch.hppa State.init [⟨'n', Memcmp.segv⟩]) (Memcmp.ret 3)).2 =
      [⟨TType.TINFO, "memcmp returned non-zero"⟩,
       ⟨TType.TFAIL, "mapped memory region contains invalid data"⟩,
       ⟨TType.TFAIL, "Mapped memory region with NO access is accessible"⟩] :=
  ⟨by decide,
   (mmap03_no_fault_on_expected_platform Arch.hppa 'n' [⟨'n', Memcmp.segv⟩] 3 (by decide)).1⟩

/-- C9: for every finite sequence of iterations of `run`, each with an arbitrary
outcome of the comparison (fault or no fault), `sig_flag` holds -1 when each
iteration enters the probe, each iteration reports exactly what `run` reports
for its own input from the initial state, and the flag is -1 again after the
last iteration. -/
theorem mmap03_probe_rearmed (arch : Arch) (its : List Iter) :
    runLoop arch State.init its =
      its.map (fun it => ((-1 : Int), (run arch it.choice State.init it.cmp).2)) ∧
    (∀ e ∈ runLoop arch State.init its, e.1 = -1) ∧
    loopState arch State.init its = State.init := by
  have hloop : runLoop arch State.init its =
      its.map (fun it => ((-1 : Int), (run arch it.choice State.init it.cmp).2)) := by
    induction its with
    | nil => rfl
    | cons it rest ih =>
      unfold runLoop
      simp only [run_resets_flag, ih, List.map_cons]
      rfl
  refine ⟨hloop, ?_, loopState_init arch its⟩
  intro e he
  rw [hloop] at he
  rcases List.mem_map.1 he with ⟨it, _, rfl⟩
  rfl

end Mmap03Theorems

/-! ## mmap01.c: theorems -/

section Mmap01Theorems
open LTP Mmap01

theorem scan_le (buf : Nat → Char) (n i : Nat) : scan buf n i ≤ i + n := by
  induction n generalizing i with
  | zero => simp [scan]
  | succ n ih =>
    unfold scan
    split
    · omega
    · have := ih (i + 1); omega

/-- The scan runs to the end exactly when no scanned byte matches the pattern. -/
theorem scan_eq_end_iff (buf : Nat → Char) (n i : Nat) :
    scan buf n i = i + n ↔ ∀ j, i ≤ j → j < i + n → isPattern (buf j) = false := by
  induction n generalizing i with
  | zero =>
    simp only [scan, Nat.add_zero, true_iff]
    intro j h1 h2
    omega
  | succ n ih =>
    unfold scan
    by_cases hp : isPattern (buf i) = true
    · simp only [hp, if_true]
      constructor
      · intro h; omega
      · intro h
        have := h i (Nat.le_refl i) (by omega)
        rw [hp] at this
        exact absurd this (by decide)
    · have hp2 : isPattern (buf i) = false := by simpa using hp
      simp only [hp2, Bool.false_eq_true, if_false]
      have e : i + (n + 1) = i + 1 + n := by omega
      rw [e, ih (i + 1)]
      constructor
      · intro h j h1 h2
        by_cases hj : j = i
        · subst hj; exact hp2
        · exact h j (by omega) h2
      · intro h j h1 h2
        exact h j (by omega) h2

/-- What `check_file` decides: PASS exactly when none of the `buf_len` bytes of
the buffer, as the read left it, matches the pattern. -/
theorem check_file_pass_iff (file : List Char) (stack : Nat → Char) :
    check_file file stack = [⟨TType.TPASS, "Functionality of mmap() successful"⟩] ↔
      ∀ j, j < buf_len → isPattern (SAFE_READ file stack buf_len j) = false := by
  have hs := scan_eq_end_iff (SAFE_READ file stack buf_len) buf_len 0
  simp only [Nat.zero_add, Nat.zero_le, true_implies] at hs
  unfold check_file
  simp only [tst_res_nil]
  rw [← hs]
  by_cases h : scan (SAFE_READ file stack buf_len) buf_len 0 = buf_len
  · simp [h]
  · simp [h]

/-- C8 (failing input): the file holds exactly the 11 bytes "hello world" that
`setup` wrote, none of them 'X', 'Y' or 'Z'; the read fills `buf[0..10]`, and
with an 'X' left in the uninitialised byte `buf[11]` the scan over all
`buf_len = 15` bytes finds it and `check_file` reports FAIL. -/
theorem mmap01_check_file_reads_uninitialised_tail :
    buf_len = 15 ∧ setup_file.length = 11 ∧
    (∀ c ∈ setup_file, isPattern c = false) ∧
    check_file setup_file (fun i => if i = 11 then 'X' else 'a') =
      [⟨TType.TFAIL, "Specified pattern found in file"⟩] := by
  decide

end Mmap01Theorems

/-! ## mmap001.c: theorems -/

section Mmap001Theorems
open LTP Mmap001

/-- While the product fits `unsigned int`, `memsize` is the exact byte size. -/
theorem memsize_exact (m_opt pagesize : Int) (hm : setup_accepts m_opt) (hp : 0 ≤ pagesize)
    (hfit : m_opt * pagesize < 2 ^ 32) : (memsize m_opt pagesize : Int) = m_opt * pagesize := by
  obtain ⟨h1, h2⟩ := hm
  unfold INT_MAX at h2
  have hp32 : pagesize < 2 ^ 32 := by nlinarith
  unfold memsize toUnsigned UINT_RANGE
  have e1 : m_opt % ((2 ^ 32 : Nat) : Int) = m_opt := Int.emod_eq_of_lt (by omega) (by norm_num; omega)
  have e2 : pagesize % ((2 ^ 32 : Nat) : Int) = pagesize := Int.emod_eq_of_lt hp (by norm_num; omega)
  rw [e1, e2]
  have hprod : 0 ≤ m_opt * pagesize := Int.mul_nonneg (by omega) hp
  push_cast
  rw [Int.toNat_of_nonneg (by omega), Int.toNat_of_nonneg hp]
  exact Int.emod_eq_of_lt hprod (by omega)

/-- Every status whose exit-status byte is zero, as in every status of a child
terminated by a signal, is reported as PASS. -/
theorem run_pass_of_exitstatus_zero (status : Nat) (h : WEXITSTATUS status = 0) :
    Mmap001.run status = [⟨TType.TPASS, "memory was mapped and written to successfully"⟩] := by
  unfold Mmap001.run
  simp [h, SIGSEGV, tst_res_nil]

/-- C6 (failing input): the wait statuses 139 (SIGSEGV with the core-dump bit)
and 11 (SIGSEGV without it) are signaled with terminating signal SIGSEGV, their
`WEXITSTATUS` is 0, and `run` reports PASS for both and no FAIL; the status 0 of
a normal exit with code 0 is reported as PASS as well. -/
theorem mmap001_run_sigsegv_reports_pass :
    (WIFSIGNALED 139 = true ∧ WTERMSIG 139 = SIGSEGV ∧ WEXITSTATUS 139 = 0 ∧
      Mmap001.run 139 = [⟨TType.TPASS, "memory was mapped and written to successfully"⟩]) ∧
    (WIFSIGNALED 11 = true ∧ WTERMSIG 11 = SIGSEGV ∧ WEXITSTATUS 11 = 0 ∧
      Mmap001.run 11 = [⟨TType.TPASS, "memory was mapped and written to successfully"⟩]) ∧
    (WIFEXITED 0 = true ∧ WEXITSTATUS 0 = 0 ∧
      Mmap001.run 0 = [⟨TType.TPASS, "memory was mapped and written to successfully"⟩]) := by
  decide

/-- C10 (failing input): `setup` accepts 1048576 pages, and with a page size of
4096 bytes the product 4294967296 wraps in `unsigned int`: `memsize` is 0. -/
theorem mmap001_memsize_wraps :
    setup_accepts 1048576 ∧ pages 1048576 = 1048576 ∧
    ((1048576 : Int) * 4096 = 4294967296) ∧ memsize 1048576 4096 = 0 := by
  decide

end Mmap001Theorems
